import Mathlib

/-!
Shallow embedding of the wwplugin multi-process plugin framework
(repository wwwlkj/wwhyplugin), covering the pieces of the host runtime
(`host.go`, `hostService`), plugin runtime (`plugin.go`) and registry
(`types.go`) that the verified claims are about.

Conventions of the embedding:
* Go `time.Time` / `time.Duration` values are modelled as `Int`
  (nanoseconds); comparisons and duration arithmetic carry over directly.
* Pointer-valued runtime handles (`Process`, `Command`, `Client`,
  `Connection`) are modelled as `Bool` flags recording non-nilness.
* The registry's `map[string]*PluginInfo` is modelled as a
  `List PluginInfo` keyed by the `id` field; `Get` is first-match lookup
  and in-place pointer mutation is replacement of the first match.
* Effectful calls that leave the process (spawning a child, dialling,
  forwarding an RPC) take their outcome as an explicit oracle argument
  (`spawnOk`, `dialOk`, a `forward` function returning
  `Except String CallResponse` where `Except.error` is a transport error).
* A Go function returning `(T, error)` is modelled as `T × Option String`
  (the second component is the returned Go error, `none` for `nil`).
-/

/-- Lifecycle status of a plugin record (`PluginStatus` in types.go). -/
inductive PluginStatus where
  | stopped
  | starting
  | running
  | stopping
  | error
  | crashed
  deriving DecidableEq, Repr

/-- The string value of a `PluginStatus` constant in the Go source
(`PluginStatus` is a string type there). -/
def PluginStatus.toGoString : PluginStatus → String
  | .stopped => "stopped"
  | .starting => "starting"
  | .running => "running"
  | .stopping => "stopping"
  | .error => "error"
  | .crashed => "crashed"

/-- Type tag of a call parameter (`proto.ParameterType`). -/
inductive ParameterType where
  | STRING
  | INT
  | FLOAT
  | BOOL
  | JSON
  deriving DecidableEq, Repr

/-- A typed call parameter (`proto.Parameter`). -/
structure Parameter where
  name : String
  ptype : ParameterType
  value : String
  deriving DecidableEq, Repr

/-- A function-call request (`proto.CallRequest`); the Go metadata map is
an association list here, looked up first-match. -/
structure CallRequest where
  functionName : String
  parameters : List Parameter
  requestId : String
  metadata : List (String × String)
  deriving DecidableEq, Repr

/-- A function-call response (`proto.CallResponse`); `result := none` and
`errorCode := ""` are the proto zero values of fields a handler leaves
unset. -/
structure CallResponse where
  success : Bool
  message : String
  result : Option Parameter
  errorCode : String
  requestId : String
  deriving DecidableEq, Repr

/-- Registration request (`proto.RegisterRequest`). -/
structure RegisterRequest where
  pluginId : String
  pluginName : String
  version : String
  description : String
  port : Int
  capabilities : List String
  deriving DecidableEq, Repr

/-- Registration response (`proto.RegisterResponse`). -/
structure RegisterResponse where
  success : Bool
  message : String
  hostId : String
  deriving DecidableEq, Repr

/-- Heartbeat response (`proto.HeartbeatResponse`). -/
structure HeartbeatResponse where
  success : Bool
  message : String
  serverTimestamp : Int
  deriving DecidableEq, Repr

/-- Comma-ok lookup in a Go string map, modelled on the association list. -/
def metaLookup (md : List (String × String)) (key : String) : Option String :=
  (md.find? (fun kv => kv.fst == key)).map Prod.snd

/-- Plain Go map read: a missing key yields the zero value `""`. -/
def metaGet (md : List (String × String)) (key : String) : String :=
  (metaLookup md key).getD ""

/-- One plugin record (`PluginInfo` in types.go).  The four `has*` flags
model non-nilness of the `Process`, `Command`, `Client` and `Connection`
pointer fields. -/
structure PluginInfo where
  id : String
  name : String
  version : String
  description : String
  port : Int
  capabilities : List String
  functions : List String
  executablePath : String
  hasProcess : Bool
  hasCommand : Bool
  hasClient : Bool
  hasConnection : Bool
  status : PluginStatus
  startTime : Int
  lastHeartbeat : Int
  autoRestart : Bool
  maxRestarts : Int
  restartCount : Int
  deriving DecidableEq, Repr

/-- Static plugin metadata (`PluginBasicInfo` in types.go). -/
structure PluginBasicInfo where
  id : String
  name : String
  version : String
  description : String
  logo : String
  capabilities : List String
  functions : List String
  deriving DecidableEq, Repr

/-- Host configuration (`HostConfig` in types.go); `portRangeLo` and
`portRangeHi` are `PortRange[0]` and `PortRange[1]`, durations are `Int`
nanoseconds. -/
structure HostConfig where
  port : Int
  portRangeLo : Int
  portRangeHi : Int
  debugMode : Bool
  logLevel : String
  logDir : String
  heartbeatInterval : Int
  maxHeartbeatMiss : Int
  autoRestartPlugin : Bool
  enablePluginReconnect : Bool
  deriving DecidableEq, Repr

/-- One nanosecond-denominated second, the unit used for Go durations. -/
def secondNs : Int := 1000000000

/-- Definition `DefaultHostConfig` from types.go. -/
def DefaultHostConfig : HostConfig :=
  { port := 0
    portRangeLo := 50051
    portRangeHi := 50100
    debugMode := true
    logLevel := "info"
    logDir := "./logs"
    heartbeatInterval := 10 * secondNs
    maxHeartbeatMiss := 3
    autoRestartPlugin := true
    enablePluginReconnect := true }

/-- A host-side callable (`HostFunction` in types.go): parameters in,
either a single result parameter or a Go error out. -/
def HostFunction : Type := List Parameter → Except String Parameter

/-- A plugin-side callable (`PluginFunction` in types.go). -/
def PluginFunction : Type := List Parameter → Except String Parameter

/-- Name resolution in a function dispatch table (a Go
`map[string]...Function`, modelled as an association list). -/
def lookupFunction (table : List (String × (List Parameter → Except String Parameter)))
    (functionName : String) : Option (List Parameter → Except String Parameter) :=
  (table.find? (fun kv => kv.fst == functionName)).map Prod.snd

/-- Method `PluginRegistry.Get`: first-match lookup by plugin ID. -/
def registryGet (reg : List PluginInfo) (pluginID : String) : Option PluginInfo :=
  reg.find? (fun p => p.id == pluginID)

/-- In-place mutation through the pointer returned by a registry lookup:
replace the first record satisfying `pred` by its image under `f`. -/
def updateFirstP (pred : PluginInfo → Bool) (f : PluginInfo → PluginInfo) :
    List PluginInfo → List PluginInfo
  | [] => []
  | p :: rest => if pred p then f p :: rest else p :: updateFirstP pred f rest

/-- Mutation of the record found by `registryGet`. -/
def updateFirstId (pluginID : String) (f : PluginInfo → PluginInfo)
    (reg : List PluginInfo) : List PluginInfo :=
  updateFirstP (fun p => p.id == pluginID) f reg

/-- Method `PluginRegistry.Count`. -/
def registryCount (reg : List PluginInfo) : Nat := reg.length

/-- The record inserted by `PluginHost.LoadPlugin` (host.go): status
`stopped`, `MaxRestarts` fixed at 3, `RestartCount` 0, all runtime
handles nil, remaining fields from the `--info` metadata. -/
def loadedPluginInfo (basic : PluginBasicInfo) (pluginID executablePath : String)
    (autoRestartPlugin : Bool) : PluginInfo :=
  { id := pluginID
    name := basic.name
    version := basic.version
    description := basic.description
    port := 0
    capabilities := basic.capabilities
    functions := basic.functions
    executablePath := executablePath
    hasProcess := false
    hasCommand := false
    hasClient := false
    hasConnection := false
    status := PluginStatus.stopped
    startTime := 0
    lastHeartbeat := 0
    autoRestart := autoRestartPlugin
    maxRestarts := 3
    restartCount := 0 }

/-- Method `Plugin.CallPluginFunction` (plugin.go): the plugin-side inbound call
handler.  Every Go return site returns a nil error, hence the `none`
second component. -/
def pluginCallPluginFunction (functions : List (String × PluginFunction))
    (req : CallRequest) : CallResponse × Option String :=
  match lookupFunction functions req.functionName with
  | none =>
    ({ success := false
       message := "未找到函数: " ++ req.functionName
       result := none
       errorCode := "FUNCTION_NOT_FOUND"
       requestId := req.requestId }, none)
  | some fn =>
    match fn req.parameters with
    | Except.error e =>
      ({ success := false
         message := e
         result := none
         errorCode := "FUNCTION_ERROR"
         requestId := req.requestId }, none)
    | Except.ok result =>
      ({ success := true
         message := "调用成功"
         result := some result
         errorCode := ""
         requestId := req.requestId }, none)

/-- The enriched request `hostService.callPluginFunction` forwards to the
target plugin: same name/parameters/request ID, metadata rebuilt to mark
the call as inter-plugin via the host. -/
def enhancedRequest (req : CallRequest) (sourcePluginID targetPluginID : String)
    (nowUnix : Int) : CallRequest :=
  { functionName := req.functionName
    parameters := req.parameters
    requestId := req.requestId
    metadata := [("source", "inter_plugin"),
                 ("source_plugin", sourcePluginID),
                 ("target_plugin", targetPluginID),
                 ("timestamp", toString nowUnix),
                 ("via_host", "true")] }

/-- Method `hostService.callPluginFunction` (the cross-plugin relay): resolve the
target record, require status `running`, forward the enriched request to
the target's outbound client (the `forward` oracle), and wrap transport
failures in a structured response.  All Go return sites return a nil
error. -/
def hsCallPluginFunction (reg : List PluginInfo) (req : CallRequest)
    (targetPluginID : String) (nowUnix : Int)
    (forward : CallRequest → Except String CallResponse) :
    CallResponse × Option String :=
  match registryGet reg targetPluginID with
  | none =>
    ({ success := false
       message := "目标插件 " ++ targetPluginID ++ " 不存在"
       result := none
       errorCode := "TARGET_PLUGIN_NOT_FOUND"
       requestId := req.requestId }, none)
  | some targetPlugin =>
    if targetPlugin.status ≠ PluginStatus.running then
      ({ success := false
         message := "目标插件 " ++ targetPluginID ++ " 状态异常: "
           ++ targetPlugin.status.toGoString
         result := none
         errorCode := "TARGET_PLUGIN_NOT_RUNNING"
         requestId := req.requestId }, none)
    else
      match forward (enhancedRequest req (metaGet req.metadata "plugin_id")
          targetPluginID nowUnix) with
      | Except.error e =>
        ({ success := false
           message := "调用目标插件函数失败: " ++ e
           result := none
           errorCode := "INTER_PLUGIN_CALL_ERROR"
           requestId := req.requestId }, none)
      | Except.ok resp => (resp, none)

/-- Method `hostService.CallHostFunction`: the host's inbound call endpoint.  A
request whose metadata carries `target_plugin_id` is handed to the relay;
otherwise the name is resolved in the host's own function table.  All Go
return sites return a nil error. -/
def hsCallHostFunction (hostFunctions : List (String × HostFunction))
    (reg : List PluginInfo) (req : CallRequest) (nowUnix : Int)
    (forward : CallRequest → Except String CallResponse) :
    CallResponse × Option String :=
  match metaLookup req.metadata "target_plugin_id" with
  | some targetPluginID => hsCallPluginFunction reg req targetPluginID nowUnix forward
  | none =>
    match lookupFunction hostFunctions req.functionName with
    | none =>
      ({ success := false
         message := "未找到函数: " ++ req.functionName
         result := none
         errorCode := "FUNCTION_NOT_FOUND"
         requestId := req.requestId }, none)
    | some fn =>
      match fn req.parameters with
      | Except.error e =>
        ({ success := false
           message := e
           result := none
           errorCode := "FUNCTION_ERROR"
           requestId := req.requestId }, none)
      | Except.ok result =>
        ({ success := true
           message := "调用成功"
           result := some result
           errorCode := ""
           requestId := req.requestId }, none)

/-- Method `hostService.Heartbeat`: touch `LastHeartbeat` of the record the ID
resolves to (if any) and answer success with a server timestamp,
unconditionally. -/
def hsHeartbeat (now : Int) (reg : List PluginInfo) (pluginId : String) :
    List PluginInfo × HeartbeatResponse :=
  (match registryGet reg pluginId with
   | some _ => updateFirstId pluginId (fun p => { p with lastHeartbeat := now }) reg
   | none => reg,
   { success := true
     message := "心跳正常"
     serverTimestamp := now })

/-- Predicate `RegisterPlugin` uses to locate the provisional record for a
registering plugin: matching ID, or any record still in `starting`. -/
def registerMatch (req : RegisterRequest) (p : PluginInfo) : Bool :=
  p.id == req.pluginId || p.status == PluginStatus.starting

/-- The field update `RegisterPlugin` applies to the located record:
adopt the ID and metadata from the request, set status `starting` and
refresh the heartbeat stamp.  (The Go delete/re-insert when the ID
changed re-keys the map entry; with records keyed by their `id` field the
in-place update already reflects it.) -/
def applyRegistration (now : Int) (req : RegisterRequest) (p : PluginInfo) : PluginInfo :=
  { p with
    id := req.pluginId
    name := req.pluginName
    version := req.version
    description := req.description
    port := req.port
    capabilities := req.capabilities
    status := PluginStatus.starting
    lastHeartbeat := now }

/-- Method `hostService.RegisterPlugin`: locate the provisional record, update it
and answer; the outbound connection to the plugin is opened later and
asynchronously (`hsConnectToPlugin`), so registration itself never makes
a record `running`. -/
def hsRegisterPlugin (now : Int) (reg : List PluginInfo) (req : RegisterRequest) :
    List PluginInfo × RegisterResponse :=
  match reg.find? (registerMatch req) with
  | none =>
    (reg, { success := false, message := "未找到对应的插件", hostId := "" })
  | some _ =>
    (updateFirstP (registerMatch req) (applyRegistration now req) reg,
     { success := true
       message := "注册成功"
       hostId := "host-" ++ toString now })

/-- Method `hostService.connectToPlugin`: dial the plugin's advertised port
(outcome `dialOk`); on success install the connection and client handles
and only then flip status to `running`, on failure mark the record
`error`. -/
def hsConnectToPlugin (dialOk : Bool) (p : PluginInfo) : PluginInfo :=
  if dialOk then
    { p with
      hasConnection := true
      hasClient := true
      status := PluginStatus.running }
  else
    { p with status := PluginStatus.error }

/-- Method `PluginHost.startPluginProcess`: set status `starting` and spawn the
child (outcome `spawnOk`).  On success the process/command handles and
start time are recorded; on spawn failure the status becomes `error` and
an error is returned. -/
def phStartPluginProcess (now : Int) (spawnOk : Bool) (p : PluginInfo) :
    PluginInfo × Option String :=
  if spawnOk then
    ({ p with
       status := PluginStatus.starting
       hasProcess := true
       hasCommand := true
       startTime := now }, none)
  else
    ({ p with status := PluginStatus.error }, some "启动插件进程失败")

/-- Method `PluginHost.stopPluginProcess`: close and clear the outbound
connection, kill and clear the process, leave the record `stopped`
(the transient `stopping` status is internal to the call). -/
def phStopPluginProcess (p : PluginInfo) : PluginInfo :=
  { p with
    status := PluginStatus.stopped
    hasConnection := false
    hasClient := false
    hasProcess := false }

/-- Method `PluginHost.monitorPluginProcess`: runs when the child process exits
(`exitedWithError` is whether `Command.Wait` returned a non-nil error).
An unexpected exit marks the record `crashed`; with `AutoRestart` set and
restart budget remaining the counter is bumped and the start sequence is
re-invoked.  The second component records whether a restart was
attempted. -/
def phMonitorPluginProcess (now : Int) (exitedWithError spawnOk : Bool)
    (p : PluginInfo) : PluginInfo × Bool :=
  if p.hasCommand then
    let p1 :=
      if exitedWithError = true ∧ p.status ≠ PluginStatus.stopping then
        { p with status := PluginStatus.crashed }
      else
        { p with status := PluginStatus.stopped }
    if p1.autoRestart = true ∧ p1.status = PluginStatus.crashed
        ∧ p1.restartCount < p1.maxRestarts then
      ((phStartPluginProcess now spawnOk
          { p1 with restartCount := p1.restartCount + 1 }).1, true)
    else
      (p1, false)
  else
    (p, false)

/-- Per-record body of `PluginHost.checkPluginsHealth`: a `running` record
whose heartbeat is older than `HeartbeatInterval × MaxHeartbeatMiss` is
declared `crashed`, then the same auto-restart policy as the process
monitor applies.  Result components: the record, whether it was marked
crashed, and whether a restart was attempted. -/
def phCheckPluginHealth (heartbeatInterval maxHeartbeatMiss now : Int)
    (spawnOk : Bool) (p : PluginInfo) : PluginInfo × Bool × Bool :=
  if p.status = PluginStatus.running then
    if now - p.lastHeartbeat > heartbeatInterval * maxHeartbeatMiss then
      let p1 := { p with status := PluginStatus.crashed }
      if p1.autoRestart = true ∧ p1.restartCount < p1.maxRestarts then
        ((phStartPluginProcess now spawnOk
            { p1 with restartCount := p1.restartCount + 1 }).1, true, true)
      else
        (p1, true, false)
    else
      (p, false, false)
  else
    (p, false, false)

/-- Method `PluginHost.checkPluginsHealth`: one sweep tick over the registry
snapshot. -/
def phCheckPluginsHealth (heartbeatInterval maxHeartbeatMiss now : Int)
    (spawnOk : Bool) (plugins : List PluginInfo) : List PluginInfo :=
  plugins.map (fun p => (phCheckPluginHealth heartbeatInterval maxHeartbeatMiss now spawnOk p).1)

/-- Method `PluginHost.StartPlugin`: unknown ID or an already-`running` record is
an error before any spawn; otherwise the record is started in place.  The
third component records whether a spawn was attempted. -/
def phStartPlugin (now : Int) (spawnOk : Bool) (reg : List PluginInfo)
    (pluginID : String) : List PluginInfo × Option String × Bool :=
  match registryGet reg pluginID with
  | none => (reg, some ("插件 " ++ pluginID ++ " 不存在"), false)
  | some p =>
    if p.status = PluginStatus.running then
      (reg, some ("插件 " ++ pluginID ++ " 已在运行中"), false)
    else
      (updateFirstId pluginID (fun q => (phStartPluginProcess now spawnOk q).1) reg,
       (phStartPluginProcess now spawnOk p).2, true)

/-- Method `PluginHost.StopPlugin`: unknown ID is a "does not exist" error and
leaves the registry untouched; otherwise the record is stopped in
place. -/
def phStopPlugin (reg : List PluginInfo) (pluginID : String) :
    List PluginInfo × Option String :=
  match registryGet reg pluginID with
  | none => (reg, some ("插件 " ++ pluginID ++ " 不存在"))
  | some _ => (updateFirstId pluginID phStopPluginProcess reg, none)

/-- Method `PluginHost.CallPluginFunction`: requires a `running` target with a
live client, then issues the call through the outbound client (the
`callResult` oracle); `nowNano`/`nowUnix` stand for the two `time.Now()`
reads building the request ID and metadata timestamp. -/
def phCallPluginFunction (reg : List PluginInfo) (pluginID functionName : String)
    (params : List Parameter) (nowNano nowUnix : Int)
    (callResult : CallRequest → Except String CallResponse) :
    Except String CallResponse :=
  match registryGet reg pluginID with
  | none => Except.error ("插件 " ++ pluginID ++ " 不存在")
  | some p =>
    if p.status ≠ PluginStatus.running then
      Except.error ("插件 " ++ pluginID ++ " 状态异常: " ++ p.status.toGoString)
    else if p.hasClient = false then
      Except.error ("插件 " ++ pluginID ++ " gRPC客户端未连接")
    else
      callResult
        { functionName := functionName
          parameters := params
          requestId := "host-" ++ toString nowNano
          metadata := [("source", "host"), ("timestamp", toString nowUnix)] }

/-- The port interval `startGrpcServer` scans: the configured range,
collapsed to the single configured port when `Port > 0`. -/
def effectivePortRange (cfg : HostConfig) : Int × Int :=
  if cfg.port > 0 then (cfg.port, cfg.port) else (cfg.portRangeLo, cfg.portRangeHi)

/-- The sequential bind loop of `startGrpcServer`: try `port`, then
`port + 1`, ..., for `fuel` candidates, returning the first port the
`bindOk` oracle accepts. -/
def findAvailablePort (bindOk : Int → Bool) (port : Int) : Nat → Option Int
  | 0 => none
  | Nat.succ fuel =>
    if bindOk port then some port else findAvailablePort bindOk (port + 1) fuel

/-- Method `PluginHost.startGrpcServer`: scan the effective port range from the
low end; success yields the bound port, exhaustion yields the
"no available port" error naming the attempted range. -/
def phStartGrpcServer (cfg : HostConfig) (bindOk : Int → Bool) : Except String Int :=
  match findAvailablePort bindOk (effectivePortRange cfg).1
      ((effectivePortRange cfg).2 + 1 - (effectivePortRange cfg).1).toNat with
  | some p => Except.ok p
  | none =>
    Except.error ("无法找到可用端口 (尝试范围: " ++ toString (effectivePortRange cfg).1
      ++ "-" ++ toString (effectivePortRange cfg).2 ++ ")")

/-- Connection/client handles are installed whenever a record is
`running` (the invariant of spec section 3). -/
def runningConnInv (p : PluginInfo) : Prop :=
  p.status = PluginStatus.running → p.hasConnection = true ∧ p.hasClient = true

/-! Helper lemmas about the registry list operations. -/

theorem mem_updateFirstP {pred : PluginInfo → Bool} {f : PluginInfo → PluginInfo} :
    ∀ {l : List PluginInfo} {q : PluginInfo}, q ∈ updateFirstP pred f l →
      q ∈ l ∨ ∃ p, p ∈ l ∧ pred p = true ∧ q = f p := by
  intro l
  induction l with
  | nil => intro q h; simp [updateFirstP] at h
  | cons a l ih =>
    intro q h
    by_cases ha : pred a
    · rw [updateFirstP, if_pos ha] at h
      rcases List.mem_cons.mp h with h | h
      · exact Or.inr ⟨a, List.mem_cons_self a l, ha, h⟩
      · exact Or.inl (List.mem_cons_of_mem a h)
    · rw [updateFirstP, if_neg ha] at h
      rcases List.mem_cons.mp h with h | h
      · exact Or.inl (h ▸ List.mem_cons_self a l)
      · rcases ih h with h | ⟨p, hp, hpred, hq⟩
        · exact Or.inl (List.mem_cons_of_mem a h)
        · exact Or.inr ⟨p, List.mem_cons_of_mem a hp, hpred, hq⟩

theorem updateFirstP_mem_of_not_pred {pred : PluginInfo → Bool}
    {f : PluginInfo → PluginInfo} :
    ∀ {l : List PluginInfo} {q : PluginInfo}, q ∈ l → pred q = false →
      q ∈ updateFirstP pred f l := by
  intro l
  induction l with
  | nil => intro q h _; simp at h
  | cons a l ih =>
    intro q h hq
    by_cases ha : pred a
    · rw [updateFirstP, if_pos ha]
      rcases List.mem_cons.mp h with h | h
      · exact absurd (h ▸ ha) (by simp [hq])
      · exact List.mem_cons_of_mem _ h
    · rw [updateFirstP, if_neg ha]
      rcases List.mem_cons.mp h with h | h
      · exact h ▸ List.mem_cons_self a _
      · exact List.mem_cons_of_mem _ (ih h hq)

theorem length_updateFirstP {pred : PluginInfo → Bool} {f : PluginInfo → PluginInfo} :
    ∀ l : List PluginInfo, (updateFirstP pred f l).length = l.length := by
  intro l
  induction l with
  | nil => rfl
  | cons a l ih =>
    by_cases ha : pred a
    · rw [updateFirstP, if_pos ha]; simp
    · rw [updateFirstP, if_neg ha]; simp [ih]

theorem registryGet_updateFirstId {f : PluginInfo → PluginInfo}
    (hf : ∀ p, (f p).id = p.id) (pluginID : String) :
    ∀ (reg : List PluginInfo) (p : PluginInfo),
      registryGet reg pluginID = some p →
      registryGet (updateFirstId pluginID f reg) pluginID = some (f p) := by
  intro reg
  induction reg with
  | nil => intro p h; simp [registryGet] at h
  | cons a l ih =>
    intro p h
    by_cases ha : (a.id == pluginID) = true
    · simp only [registryGet, List.find?_cons, ha, Option.some.injEq] at h
      subst h
      rw [updateFirstId]
      simp only [updateFirstP, if_pos ha]
      simp only [registryGet, List.find?_cons, hf, ha]
    · have hb : (a.id == pluginID) = false := Bool.eq_false_iff.mpr ha
      simp only [registryGet, List.find?_cons, hb] at h
      rw [updateFirstId]
      simp [updateFirstP, hb, registryGet, List.find?_cons]
      exact ih p h

theorem registryGet_eq_none {reg : List PluginInfo} {pluginID : String}
    (h : ∀ p ∈ reg, p.id ≠ pluginID) : registryGet reg pluginID = none := by
  rw [registryGet, List.find?_eq_none]
  intro p hp
  simpa using h p hp

theorem countP_id_hasProcess (pluginID : String) :
    ∀ (reg : List PluginInfo) (p : PluginInfo),
      (reg.map PluginInfo.id).Nodup →
      registryGet reg pluginID = some p → p.hasProcess = true →
      reg.countP (fun q => q.id == pluginID && q.hasProcess) = 1 := by
  intro reg
  induction reg with
  | nil => intro p _ h; simp [registryGet] at h
  | cons a l ih =>
    intro p hnd h hp
    rw [List.map_cons, List.nodup_cons] at hnd
    by_cases ha : (a.id == pluginID) = true
    · simp only [registryGet, List.find?_cons, ha, Option.some.injEq] at h
      have hzero : l.countP (fun q => q.id == pluginID && q.hasProcess) = 0 := by
        rw [List.countP_eq_zero]
        intro q hq
        have hne : q.id ≠ a.id := by
          intro hcontra
          exact hnd.1 (hcontra ▸ List.mem_map_of_mem PluginInfo.id hq)
        have hqid : (q.id == pluginID) = false := by
          rw [beq_eq_false_iff_ne]
          intro hq2
          exact hne (hq2.trans (eq_of_beq ha).symm)
        simp [hqid]
      rw [List.countP_cons, hzero]
      simp [ha, h ▸ hp]
    · simp only [registryGet, List.find?_cons, Bool.eq_false_iff.mpr ha] at h
      rw [List.countP_cons]
      have hfalse : ((a.id == pluginID && a.hasProcess) = false) := by
        simp [Bool.eq_false_iff.mpr ha]
      rw [hfalse]
      simp [ih p hnd.2 h hp]

/-! Concrete demonstration data used by witness theorems. -/

/-- A host function table containing `GetSystemTime`, as registered by
`registerDefaultFunctions`. -/
def demoHostTable : List (String × HostFunction) :=
  [("GetSystemTime", fun _ => Except.ok
    { name := "system_time", ptype := ParameterType.STRING, value := "2026-01-01 00:00:00" })]

/-- An inter-plugin call request: its metadata carries
`target_plugin_id`, and its function name collides with a registered
host function. -/
def demoRelayRequest : CallRequest :=
  { functionName := "GetSystemTime"
    parameters := []
    requestId := "req-1"
    metadata := [("target_plugin_id", "plugin-x"),
                 ("plugin_id", "plugin-src"),
                 ("source", "plugin")] }

/-- A forwarding oracle that always fails at the transport level. -/
def demoForward : CallRequest → Except String CallResponse :=
  fun _ => Except.error "connection refused"

/-- A registered but stopped target plugin record. -/
def demoStoppedPlugin : PluginInfo :=
  { id := "plugin-x"
    name := "X"
    version := "1.0.0"
    description := ""
    port := 50060
    capabilities := []
    functions := ["GetSystemTime"]
    executablePath := "x.exe"
    hasProcess := false
    hasCommand := false
    hasClient := false
    hasConnection := false
    status := PluginStatus.stopped
    startTime := 0
    lastHeartbeat := 0
    autoRestart := true
    maxRestarts := 3
    restartCount := 0 }

/-! Claim theorems. -/

/-- C1: a call arriving at `CallHostFunction` whose metadata carries
`target_plugin_id` is never dispatched against the host's own function
table (the response is independent of that table, even when a host
function of the same name exists); an unknown target yields
`success=false` with `error_code=TARGET_PLUGIN_NOT_FOUND`, and a known
target whose status is not `running` yields `success=false` with
`error_code=TARGET_PLUGIN_NOT_RUNNING`. -/
theorem relay_bypasses_host_function_table
    (hostFunctions hostFunctions2 : List (String × HostFunction))
    (reg : List PluginInfo) (req : CallRequest) (nowUnix : Int)
    (forward : CallRequest → Except String CallResponse) (targetPluginID : String)
    (hmeta : metaLookup req.metadata "target_plugin_id" = some targetPluginID) :
    hsCallHostFunction hostFunctions reg req nowUnix forward
      = hsCallHostFunction hostFunctions2 reg req nowUnix forward
    ∧ (registryGet reg targetPluginID = none →
        (hsCallHostFunction hostFunctions reg req nowUnix forward).1.success = false
        ∧ (hsCallHostFunction hostFunctions reg req nowUnix forward).1.errorCode
            = "TARGET_PLUGIN_NOT_FOUND")
    ∧ (∀ target, registryGet reg targetPluginID = some target →
        target.status ≠ PluginStatus.running →
        (hsCallHostFunction hostFunctions reg req nowUnix forward).1.success = false
        ∧ (hsCallHostFunction hostFunctions reg req nowUnix forward).1.errorCode
            = "TARGET_PLUGIN_NOT_RUNNING") := by
  refine ⟨?_, ?_, ?_⟩
  · simp [hsCallHostFunction, hmeta]
  · intro h
    simp [hsCallHostFunction, hmeta, hsCallPluginFunction, h]
  · intro target ht hs
    simp [hsCallHostFunction, hmeta, hsCallPluginFunction, ht, hs]

/-- C1 witness: with an empty registry, the relayed request for
`GetSystemTime` is answered `TARGET_PLUGIN_NOT_FOUND` although a host
function of that very name is registered. -/
theorem relay_bypasses_host_function_table_witness :
    (hsCallHostFunction demoHostTable [] demoRelayRequest 0 demoForward).1.errorCode
      = "TARGET_PLUGIN_NOT_FOUND" :=
  ((relay_bypasses_host_function_table demoHostTable [] [] demoRelayRequest 0 demoForward
      "plugin-x" rfl).2.1 rfl).2

/-- C2: every relayed call is answered with a structured `CallResponse`
and a nil handler error; unknown target, non-`running` target, and a
transport failure of the forwarded call each produce `success=false`,
the respective error code among TARGET_PLUGIN_NOT_FOUND /
TARGET_PLUGIN_NOT_RUNNING / INTER_PLUGIN_CALL_ERROR, and the original
request ID echoed. -/
theorem relay_errors_are_structured
    (hostFunctions : List (String × HostFunction)) (reg : List PluginInfo)
    (req : CallRequest) (nowUnix : Int)
    (forward : CallRequest → Except String CallResponse) (targetPluginID : String)
    (hmeta : metaLookup req.metadata "target_plugin_id" = some targetPluginID) :
    (hsCallHostFunction hostFunctions reg req nowUnix forward).2 = none
    ∧ (registryGet reg targetPluginID = none →
        (hsCallHostFunction hostFunctions reg req nowUnix forward).1.success = false
        ∧ (hsCallHostFunction hostFunctions reg req nowUnix forward).1.errorCode
            = "TARGET_PLUGIN_NOT_FOUND"
        ∧ (hsCallHostFunction hostFunctions reg req nowUnix forward).1.requestId
            = req.requestId)
    ∧ (∀ target, registryGet reg targetPluginID = some target →
        target.status ≠ PluginStatus.running →
        (hsCallHostFunction hostFunctions reg req nowUnix forward).1.success = false
        ∧ (hsCallHostFunction hostFunctions reg req nowUnix forward).1.errorCode
            = "TARGET_PLUGIN_NOT_RUNNING"
        ∧ (hsCallHostFunction hostFunctions reg req nowUnix forward).1.requestId
            = req.requestId)
    ∧ (∀ target e, registryGet reg targetPluginID = some target →
        target.status = PluginStatus.running →
        forward (enhancedRequest req (metaGet req.metadata "plugin_id")
            targetPluginID nowUnix) = Except.error e →
        (hsCallHostFunction hostFunctions reg req nowUnix forward).1.success = false
        ∧ (hsCallHostFunction hostFunctions reg req nowUnix forward).1.errorCode
            = "INTER_PLUGIN_CALL_ERROR"
        ∧ (hsCallHostFunction hostFunctions reg req nowUnix forward).1.requestId
            = req.requestId) := by
  refine ⟨?_, ?_, ?_, ?_⟩
  · rw [hsCallHostFunction]
    simp only [hmeta]
    rcases hg : registryGet reg targetPluginID with _ | target
    · simp [hsCallPluginFunction, hg]
    · by_cases hs : target.status = PluginStatus.running
      · rcases hf : forward (enhancedRequest req (metaGet req.metadata "plugin_id")
            targetPluginID nowUnix) with e | resp
        · simp [hsCallPluginFunction, hg, hs, hf]
        · simp [hsCallPluginFunction, hg, hs, hf]
      · simp [hsCallPluginFunction, hg, hs]
  · intro h
    simp [hsCallHostFunction, hmeta, hsCallPluginFunction, h]
  · intro target ht hs
    simp [hsCallHostFunction, hmeta, hsCallPluginFunction, ht, hs]
  · intro target e ht hs hf
    simp [hsCallHostFunction, hmeta, hsCallPluginFunction, ht, hs, hf]

/-- C2 witness: relaying to the registered but stopped `plugin-x` yields
the structured `TARGET_PLUGIN_NOT_RUNNING` failure. -/
theorem relay_errors_are_structured_witness :
    (hsCallHostFunction demoHostTable [demoStoppedPlugin] demoRelayRequest 0
        demoForward).1.errorCode = "TARGET_PLUGIN_NOT_RUNNING" :=
  ((relay_errors_are_structured demoHostTable [demoStoppedPlugin] demoRelayRequest 0
      demoForward "plugin-x" rfl).2.2.1 demoStoppedPlugin rfl (by decide)).2.1

/-- C6: the plugin-side inbound call handler answers an unknown function
name with `FUNCTION_NOT_FOUND`, a failing registered function with
`FUNCTION_ERROR` carrying the error text as message, and a succeeding
function with `success=true` carrying the returned parameter; the
request ID is echoed on every path. -/
theorem pluginCallPluginFunction_spec (functions : List (String × PluginFunction))
    (req : CallRequest) :
    (pluginCallPluginFunction functions req).1.requestId = req.requestId
    ∧ (lookupFunction functions req.functionName = none →
        (pluginCallPluginFunction functions req).1.success = false
        ∧ (pluginCallPluginFunction functions req).1.errorCode = "FUNCTION_NOT_FOUND")
    ∧ (∀ fn e, lookupFunction functions req.functionName = some fn →
        fn req.parameters = Except.error e →
        (pluginCallPluginFunction functions req).1.success = false
        ∧ (pluginCallPluginFunction functions req).1.errorCode = "FUNCTION_ERROR"
        ∧ (pluginCallPluginFunction functions req).1.message = e)
    ∧ (∀ fn r, lookupFunction functions req.functionName = some fn →
        fn req.parameters = Except.ok r →
        (pluginCallPluginFunction functions req).1.success = true
        ∧ (pluginCallPluginFunction functions req).1.result = some r) := by
  refine ⟨?_, ?_, ?_, ?_⟩
  · rcases hl : lookupFunction functions req.functionName with _ | fn
    · simp [pluginCallPluginFunction, hl]
    · rcases hr : fn req.parameters with e | r
      · simp [pluginCallPluginFunction, hl, hr]
      · simp [pluginCallPluginFunction, hl, hr]
  · intro h
    simp [pluginCallPluginFunction, h]
  · intro fn e h he
    simp [pluginCallPluginFunction, h, he]
  · intro fn r h hr
    simp [pluginCallPluginFunction, h, hr]

/-- A one-entry plugin function table whose function succeeds. -/
def demoPluginTable : List (String × PluginFunction) :=
  [("Echo", fun _ => Except.ok
    { name := "result", ptype := ParameterType.STRING, value := "x" })]

/-- C6 witness: an unknown function name on a concrete table gets the
structured `FUNCTION_NOT_FOUND` response with the request ID echoed. -/
theorem pluginCallPluginFunction_spec_witness :
    (pluginCallPluginFunction demoPluginTable
      { functionName := "Nope", parameters := [], requestId := "r1",
        metadata := [] }).1.errorCode = "FUNCTION_NOT_FOUND" :=
  ((pluginCallPluginFunction_spec demoPluginTable
      { functionName := "Nope", parameters := [], requestId := "r1",
        metadata := [] }).2.1 rfl).2

/-- A running record with `MaxRestarts=2` and a live process, the subject
of the restart-budget scenario. -/
def crashDemoPlugin : PluginInfo :=
  { id := "plugin-c"
    name := "C"
    version := "1.0.0"
    description := ""
    port := 50061
    capabilities := []
    functions := []
    executablePath := "c.exe"
    hasProcess := true
    hasCommand := true
    hasClient := true
    hasConnection := true
    status := PluginStatus.running
    startTime := 0
    lastHeartbeat := 0
    autoRestart := true
    maxRestarts := 2
    restartCount := 0 }

/-- First crash detection on `crashDemoPlugin` (process exited with an
error). -/
def crashChain1 : PluginInfo × Bool := phMonitorPluginProcess 100 true true crashDemoPlugin

/-- Second consecutive crash detection. -/
def crashChain2 : PluginInfo × Bool := phMonitorPluginProcess 200 true true crashChain1.1

/-- Third consecutive crash detection. -/
def crashChain3 : PluginInfo × Bool := phMonitorPluginProcess 300 true true crashChain2.1

/-- C3: both crash-detection paths (process-exit monitor and heartbeat
sweep) preserve `RestartCount ≤ MaxRestarts` for an auto-restarting
record, and concretely, with `MaxRestarts=2` three consecutive crash
detections attempt exactly two restarts — the third (and any later)
detection attempts none and leaves the record `crashed` with
`RestartCount = MaxRestarts = 2`. -/
theorem restart_budget_never_exceeded
    (p : PluginInfo) (now heartbeatInterval maxHeartbeatMiss : Int)
    (exitedWithError spawnOk : Bool)
    (hauto : p.autoRestart = true)
    (hbudget : p.restartCount ≤ p.maxRestarts) :
    ((phMonitorPluginProcess now exitedWithError spawnOk p).1.restartCount
        ≤ (phMonitorPluginProcess now exitedWithError spawnOk p).1.maxRestarts)
    ∧ ((phCheckPluginHealth heartbeatInterval maxHeartbeatMiss now spawnOk p).1.restartCount
        ≤ (phCheckPluginHealth heartbeatInterval maxHeartbeatMiss now spawnOk p).1.maxRestarts)
    ∧ crashChain1.2 = true
    ∧ crashChain2.2 = true
    ∧ crashChain3.2 = false
    ∧ crashChain3.1.status = PluginStatus.crashed
    ∧ crashChain3.1.restartCount = 2
    ∧ crashChain3.1.restartCount = crashChain3.1.maxRestarts
    ∧ (phMonitorPluginProcess 400 true true crashChain3.1).2 = false
    ∧ (phMonitorPluginProcess 400 true true crashChain3.1).1.status
        = PluginStatus.crashed := by
  refine ⟨?_, ?_, by decide, by decide, by decide, by decide, by decide, by decide,
    by decide, by decide⟩
  · simp only [phMonitorPluginProcess, phStartPluginProcess]
    split_ifs <;> simp_all <;> omega
  · simp only [phCheckPluginHealth, phStartPluginProcess]
    split_ifs <;> simp_all <;> omega

/-- C3 witness: the budget invariant applied to the concrete record
`crashDemoPlugin` at its first crash detection. -/
theorem restart_budget_never_exceeded_witness :
    (phMonitorPluginProcess 100 true true crashDemoPlugin).1.restartCount
      ≤ (phMonitorPluginProcess 100 true true crashDemoPlugin).1.maxRestarts :=
  (restart_budget_never_exceeded crashDemoPlugin 100 secondNs 3 true true rfl
    (by decide)).1

/-- The sweep instant of the concrete heartbeat scenario. -/
def sweepNow : Int := 100 * secondNs

/-- A running record whose heartbeat is 2 seconds old at `sweepNow`. -/
def freshHeartbeatPlugin : PluginInfo :=
  { crashDemoPlugin with lastHeartbeat := sweepNow - 2 * secondNs }

/-- A running record whose heartbeat is 4 seconds old at `sweepNow`
(auto-restart off, so the sweep outcome is the bare `crashed` mark). -/
def staleHeartbeatPlugin : PluginInfo :=
  { crashDemoPlugin with
    lastHeartbeat := sweepNow - 4 * secondNs
    autoRestart := false }

/-- C4: one heartbeat-sweep tick marks a record crashed exactly when it
is `running` and `now − LastHeartbeat > HeartbeatInterval ×
MaxHeartbeatMiss` (strictly); records that are not `running` are left
entirely unexamined; with a 1-second interval and `MaxHeartbeatMiss=3` a
4-second-old heartbeat is marked crashed and a 2-second-old one is
not. -/
theorem heartbeat_sweep_crash_condition
    (heartbeatInterval maxHeartbeatMiss now : Int) (spawnOk : Bool) (p : PluginInfo) :
    ((phCheckPluginHealth heartbeatInterval maxHeartbeatMiss now spawnOk p).2.1 = true
      ↔ p.status = PluginStatus.running
        ∧ now - p.lastHeartbeat > heartbeatInterval * maxHeartbeatMiss)
    ∧ (p.status ≠ PluginStatus.running →
        phCheckPluginHealth heartbeatInterval maxHeartbeatMiss now spawnOk p
          = (p, false, false))
    ∧ (phCheckPluginHealth secondNs 3 sweepNow true staleHeartbeatPlugin).2.1 = true
    ∧ (phCheckPluginHealth secondNs 3 sweepNow true staleHeartbeatPlugin).1.status
        = PluginStatus.crashed
    ∧ (phCheckPluginHealth secondNs 3 sweepNow true freshHeartbeatPlugin).2.1 = false
    ∧ (phCheckPluginHealth secondNs 3 sweepNow true freshHeartbeatPlugin).1
        = freshHeartbeatPlugin := by
  refine ⟨⟨?_, ?_⟩, ?_, by decide, by decide, by decide, by decide⟩
  · intro h
    by_cases hs : p.status = PluginStatus.running
    · refine ⟨hs, ?_⟩
      by_cases ht : now - p.lastHeartbeat > heartbeatInterval * maxHeartbeatMiss
      · exact ht
      · rw [phCheckPluginHealth, if_pos hs, if_neg ht] at h
        simp at h
    · rw [phCheckPluginHealth, if_neg hs] at h
      simp at h
  · rintro ⟨hs, ht⟩
    rw [phCheckPluginHealth, if_pos hs, if_pos ht]
    dsimp only
    split_ifs <;> rfl
  · intro hs
    rw [phCheckPluginHealth, if_neg hs]

/-- C4 witness: a stopped record is returned untouched by the sweep. -/
theorem heartbeat_sweep_crash_condition_witness :
    phCheckPluginHealth secondNs 3 sweepNow true demoStoppedPlugin
      = (demoStoppedPlugin, false, false) :=
  (heartbeat_sweep_crash_condition secondNs 3 sweepNow true demoStoppedPlugin).2.1
    (by decide)

/-- A registration request used in witnesses. -/
def demoRegisterRequest : RegisterRequest :=
  { pluginId := "plugin-x"
    pluginName := "X"
    version := "1.0.0"
    description := ""
    port := 50060
    capabilities := [] }

/-- C5: a record becomes `running` only through `connectToPlugin` and
only when the outbound dial succeeded — registration itself leaves the
matched record at `starting` (no record in the post-registration registry
is `running` unless it already was), a successful connect installs the
connection and client handles before flipping to `running`, and the
invariant "running implies non-nil Connection and Client" is preserved
by every modelled state transition. -/
theorem running_only_after_connect
    (now : Int) (reg : List PluginInfo) (req : RegisterRequest)
    (dialOk spawnOk exitedWithError : Bool)
    (heartbeatInterval maxHeartbeatMiss : Int)
    (p : PluginInfo) (pluginId : String) :
    (∀ q ∈ (hsRegisterPlugin now reg req).1, q.status = PluginStatus.running → q ∈ reg)
    ∧ ((hsConnectToPlugin dialOk p).status = PluginStatus.running →
        dialOk = true ∧ (hsConnectToPlugin dialOk p).hasConnection = true
          ∧ (hsConnectToPlugin dialOk p).hasClient = true)
    ∧ (runningConnInv p → runningConnInv (hsConnectToPlugin dialOk p))
    ∧ runningConnInv (phStartPluginProcess now spawnOk p).1
    ∧ runningConnInv (phStopPluginProcess p)
    ∧ (runningConnInv p →
        runningConnInv (phMonitorPluginProcess now exitedWithError spawnOk p).1)
    ∧ (runningConnInv p →
        runningConnInv
          (phCheckPluginHealth heartbeatInterval maxHeartbeatMiss now spawnOk p).1)
    ∧ ((∀ r ∈ reg, runningConnInv r) →
        ∀ q ∈ (hsRegisterPlugin now reg req).1, runningConnInv q)
    ∧ ((∀ r ∈ reg, runningConnInv r) →
        ∀ q ∈ (hsHeartbeat now reg pluginId).1, runningConnInv q) := by
  refine ⟨?_, ?_, ?_, ?_, ?_, ?_, ?_, ?_, ?_⟩
  · intro q hq hrun
    rcases hfind : reg.find? (registerMatch req) with _ | t
    · rw [hsRegisterPlugin, hfind] at hq
      exact hq
    · rw [hsRegisterPlugin, hfind] at hq
      rcases mem_updateFirstP hq with h | ⟨p2, hp2, _, hq2⟩
      · exact h
      · rw [hq2, applyRegistration] at hrun
        simp at hrun
  · intro h
    cases dialOk with
    | false => simp [hsConnectToPlugin] at h
    | true => exact ⟨rfl, by simp [hsConnectToPlugin], by simp [hsConnectToPlugin]⟩
  · intro _
    cases dialOk <;> simp [hsConnectToPlugin, runningConnInv]
  · cases spawnOk <;> simp [phStartPluginProcess, runningConnInv]
  · simp [phStopPluginProcess, runningConnInv]
  · intro hinv
    simp only [runningConnInv] at hinv ⊢
    simp only [phMonitorPluginProcess, phStartPluginProcess]
    split_ifs <;> simp_all
  · intro hinv
    simp only [runningConnInv] at hinv ⊢
    simp only [phCheckPluginHealth, phStartPluginProcess]
    split_ifs <;> simp_all
  · intro hall q hq
    rcases hfind : reg.find? (registerMatch req) with _ | t
    · rw [hsRegisterPlugin, hfind] at hq
      exact hall q hq
    · rw [hsRegisterPlugin, hfind] at hq
      rcases mem_updateFirstP hq with h | ⟨p2, _, _, hq2⟩
      · exact hall q h
      · rw [hq2]
        simp [runningConnInv, applyRegistration]
  · intro hall q hq
    rcases hg : registryGet reg pluginId with _ | t
    · rw [hsHeartbeat] at hq
      simp only [hg] at hq
      exact hall q hq
    · rw [hsHeartbeat] at hq
      simp only [hg] at hq
      rcases mem_updateFirstP hq with h | ⟨p2, hp2, _, hq2⟩
      · exact hall q h
      · rw [hq2]
        have := hall p2 hp2
        simpa [runningConnInv] using this

/-- C5 witness: a successful outbound connect on a concrete record yields
`running` with both handles installed. -/
theorem running_only_after_connect_witness :
    (hsConnectToPlugin true demoStoppedPlugin).hasConnection = true :=
  ((running_only_after_connect 0 [] demoRegisterRequest true true true secondNs 3
      demoStoppedPlugin "p").2.1 (by decide)).2.1

/-- A running record with a live process handle. -/
def demoRunningPlugin : PluginInfo :=
  { demoStoppedPlugin with
    id := "plugin-r"
    status := PluginStatus.running
    hasProcess := true
    hasCommand := true
    hasClient := true
    hasConnection := true }

/-- C7: `StartPlugin` returns an error and attempts no spawn when the ID
is unknown or the record is already `running`; in the already-running
case the registry is returned unchanged, so (with unique IDs) it still
holds exactly one record carrying a process handle for that ID. -/
theorem startPlugin_guard_spec (now : Int) (spawnOk : Bool) (reg : List PluginInfo)
    (pluginID : String) :
    (registryGet reg pluginID = none →
      phStartPlugin now spawnOk reg pluginID
        = (reg, some ("插件 " ++ pluginID ++ " 不存在"), false))
    ∧ (∀ p, registryGet reg pluginID = some p → p.status = PluginStatus.running →
        phStartPlugin now spawnOk reg pluginID
          = (reg, some ("插件 " ++ pluginID ++ " 已在运行中"), false)
        ∧ ((reg.map PluginInfo.id).Nodup → p.hasProcess = true →
            ((phStartPlugin now spawnOk reg pluginID).1.countP
                (fun q => q.id == pluginID && q.hasProcess)) = 1)) := by
  refine ⟨?_, ?_⟩
  · intro h
    simp [phStartPlugin, h]
  · intro p hp hrun
    have heq : phStartPlugin now spawnOk reg pluginID
        = (reg, some ("插件 " ++ pluginID ++ " 已在运行中"), false) := by
      simp [phStartPlugin, hp, hrun]
    refine ⟨heq, ?_⟩
    intro hnd hproc
    rw [heq]
    exact countP_id_hasProcess pluginID reg p hnd hp hproc

/-- C7 witness: starting the already-running `plugin-r` leaves exactly
one process handle registered under that ID. -/
theorem startPlugin_guard_spec_witness :
    ((phStartPlugin 0 true [demoRunningPlugin] "plugin-r").1.countP
        (fun q => q.id == "plugin-r" && q.hasProcess)) = 1 :=
  ((startPlugin_guard_spec 0 true [demoRunningPlugin] "plugin-r").2
    demoRunningPlugin rfl rfl).2 (by simp) rfl

/-- C8: for an ID absent from the registry, `Get` answers not-found while
`StopPlugin` and `CallPluginFunction` answer the "does not exist" error;
the registry is left unchanged, and (the operations being total
functions) no code path panics. -/
theorem unknown_id_operations_safe (reg : List PluginInfo)
    (pluginID functionName : String) (params : List Parameter)
    (nowNano nowUnix : Int) (callResult : CallRequest → Except String CallResponse)
    (h : ∀ p ∈ reg, p.id ≠ pluginID) :
    registryGet reg pluginID = none
    ∧ phStopPlugin reg pluginID = (reg, some ("插件 " ++ pluginID ++ " 不存在"))
    ∧ phCallPluginFunction reg pluginID functionName params nowNano nowUnix callResult
        = Except.error ("插件 " ++ pluginID ++ " 不存在") := by
  have hg := registryGet_eq_none h
  exact ⟨hg, by simp [phStopPlugin, hg], by simp [phCallPluginFunction, hg]⟩

/-- C8 witness: the unknown ID `ghost` on a one-record registry. -/
theorem unknown_id_operations_safe_witness :
    phStopPlugin [demoRunningPlugin] "ghost"
      = ([demoRunningPlugin], some ("插件 " ++ "ghost" ++ " 不存在")) :=
  (unknown_id_operations_safe [demoRunningPlugin] "ghost" "f" [] 0 0
    (fun _ => Except.error "x") (by decide)).2.1

/-- A successful run of the bind loop returns the first acceptable port
at or above `start` within `fuel` candidates. -/
theorem findAvailablePort_some (bindOk : Int → Bool) :
    ∀ (fuel : Nat) (start p : Int), findAvailablePort bindOk start fuel = some p →
      bindOk p = true ∧ start ≤ p ∧ p < start + fuel
        ∧ ∀ q, start ≤ q → q < p → bindOk q = false := by
  intro fuel
  induction fuel with
  | zero =>
    intro s p h
    simp [findAvailablePort] at h
  | succ n ih =>
    intro s p h
    rw [findAvailablePort] at h
    by_cases hb : bindOk s
    · rw [if_pos hb, Option.some_inj] at h
      subst h
      refine ⟨hb, le_refl _, by omega, ?_⟩
      intro q h1 h2
      exact absurd h2 (by omega)
    · rw [if_neg hb] at h
      obtain ⟨h1, h2, h3, h4⟩ := ih (s + 1) p h
      refine ⟨h1, by omega, by omega, ?_⟩
      intro q hq1 hq2
      by_cases hqs : q = s
      · rw [hqs]
        exact Bool.eq_false_iff.mpr hb
      · exact h4 q (by omega) hq2

/-- The bind loop fails when every candidate port is rejected. -/
theorem findAvailablePort_none (bindOk : Int → Bool) :
    ∀ (fuel : Nat) (start : Int),
      (∀ q, start ≤ q → q < start + fuel → bindOk q = false) →
      findAvailablePort bindOk start fuel = none := by
  intro fuel
  induction fuel with
  | zero => intro s _; rfl
  | succ n ih =>
    intro s h
    have hb : bindOk s = false := h s (le_refl s) (by omega)
    rw [findAvailablePort]
    simp only [hb, Bool.false_eq_true, if_false]
    exact ih (s + 1) (fun q h1 h2 => h q (by omega) (by omega))

/-- The single-port configuration of the spec scenario: port range
[50051, 50051], no explicit port. -/
def singlePortConfig : HostConfig :=
  { DefaultHostConfig with portRangeLo := 50051, portRangeHi := 50051 }

/-- A configuration with an explicit port, which collapses the scanned
range. -/
def explicitPortConfig : HostConfig :=
  { DefaultHostConfig with port := 50051 }

/-- C9: gRPC-server startup scans ports sequentially from the low end of
the effective range (a bound port is the first acceptable one, everything
below it having failed), an explicit configured port collapses the range
to that single port, and exhausting the range yields the "no available
port" error naming the attempted range — in particular the single-port
range [50051, 50051] with the port already bound. -/
theorem port_scan_spec (cfg : HostConfig) (bindOk : Int → Bool) :
    (∀ p, phStartGrpcServer cfg bindOk = Except.ok p →
      (effectivePortRange cfg).1 ≤ p ∧ p ≤ (effectivePortRange cfg).2
      ∧ bindOk p = true
      ∧ ∀ q, (effectivePortRange cfg).1 ≤ q → q < p → bindOk q = false)
    ∧ ((∀ q, (effectivePortRange cfg).1 ≤ q → q ≤ (effectivePortRange cfg).2 →
          bindOk q = false) →
        phStartGrpcServer cfg bindOk
          = Except.error ("无法找到可用端口 (尝试范围: "
              ++ toString (effectivePortRange cfg).1 ++ "-"
              ++ toString (effectivePortRange cfg).2 ++ ")"))
    ∧ (cfg.port > 0 → effectivePortRange cfg = (cfg.port, cfg.port))
    ∧ phStartGrpcServer singlePortConfig (fun _ => false)
        = Except.error "无法找到可用端口 (尝试范围: 50051-50051)" := by
  refine ⟨?_, ?_, ?_, rfl⟩
  · intro p h
    rw [phStartGrpcServer] at h
    rcases hf : findAvailablePort bindOk (effectivePortRange cfg).1
        ((effectivePortRange cfg).2 + 1 - (effectivePortRange cfg).1).toNat with _ | p2
    · rw [hf] at h
      simp at h
    · rw [hf] at h
      simp only [Except.ok.injEq] at h
      subst h
      obtain ⟨h1, h2, h3, h4⟩ := findAvailablePort_some bindOk _ _ _ hf
      exact ⟨h2, by omega, h1, h4⟩
  · intro h
    have hnone : findAvailablePort bindOk (effectivePortRange cfg).1
        ((effectivePortRange cfg).2 + 1 - (effectivePortRange cfg).1).toNat = none := by
      apply findAvailablePort_none
      intro q h1 h2
      exact h q h1 (by omega)
    rw [phStartGrpcServer, hnone]
  · intro h
    rw [effectivePortRange, if_pos h]

/-- C9 witness: an explicit port 50051 collapses the scanned range to
that port alone. -/
theorem port_scan_spec_witness :
    effectivePortRange explicitPortConfig
      = (explicitPortConfig.port, explicitPortConfig.port) :=
  (port_scan_spec explicitPortConfig (fun _ => true)).2.2.1 (by decide)

/-- C10: the Heartbeat handler always answers success with a server
timestamp; a registered ID gets exactly its record's `LastHeartbeat`
field refreshed (every other field, and every other record, unchanged),
while an unregistered ID leaves the registry entirely unchanged and
still gets the success response. -/
theorem heartbeat_updates_only_lastHeartbeat (now : Int) (reg : List PluginInfo)
    (pluginId : String) :
    (hsHeartbeat now reg pluginId).2.success = true
    ∧ (hsHeartbeat now reg pluginId).2.serverTimestamp = now
    ∧ (hsHeartbeat now reg pluginId).1.length = reg.length
    ∧ (registryGet reg pluginId = none → (hsHeartbeat now reg pluginId).1 = reg)
    ∧ (∀ q ∈ reg, q.id ≠ pluginId → q ∈ (hsHeartbeat now reg pluginId).1)
    ∧ (∀ q ∈ (hsHeartbeat now reg pluginId).1, q.id ≠ pluginId → q ∈ reg)
    ∧ (∀ p, registryGet reg pluginId = some p →
        registryGet (hsHeartbeat now reg pluginId).1 pluginId
          = some { p with lastHeartbeat := now }) := by
  refine ⟨rfl, rfl, ?_, ?_, ?_, ?_, ?_⟩
  · rcases hg : registryGet reg pluginId with _ | t
    · simp [hsHeartbeat, hg]
    · simp [hsHeartbeat, hg, updateFirstId, length_updateFirstP]
  · intro hg
    simp [hsHeartbeat, hg]
  · intro q hq hne
    rcases hg : registryGet reg pluginId with _ | t
    · simp only [hsHeartbeat, hg]
      exact hq
    · simp only [hsHeartbeat, hg]
      exact updateFirstP_mem_of_not_pred hq (beq_eq_false_iff_ne.mpr hne)
  · intro q hq hne
    rcases hg : registryGet reg pluginId with _ | t
    · simp only [hsHeartbeat, hg] at hq
      exact hq
    · simp only [hsHeartbeat, hg] at hq
      rcases mem_updateFirstP hq with h | ⟨p2, hp2, hpred, hq2⟩
      · exact h
      · exfalso
        apply hne
        rw [hq2]
        exact eq_of_beq hpred
  · intro p hp
    simp only [hsHeartbeat, hp]
    exact @registryGet_updateFirstId (fun q => { q with lastHeartbeat := now })
      (fun _ => rfl) pluginId reg p hp

/-- C10 witness: the unregistered ID `ghost` leaves a one-record
registry unchanged. -/
theorem heartbeat_updates_only_lastHeartbeat_witness :
    (hsHeartbeat 5 [demoRunningPlugin] "ghost").1 = [demoRunningPlugin] :=
  (heartbeat_updates_only_lastHeartbeat 5 [demoRunningPlugin] "ghost").2.2.2.1 rfl
